import Mathlib

/-!
# WiFi mode arbitration of the ESP32 port (`fw/platforms/esp32/src/esp32_wifi.c`)

The C functions `miot_wifi_set_mode`, `miot_wifi_add_mode`, `miot_wifi_remove_mode`,
`miot_wifi_setup_sta`, `miot_wifi_setup_ap` and `do_wifi` are embedded as pure functions
that pass an explicit `World`: the state of the vendor driver together with the list of
driver calls issued so far.  The vendor driver itself is external; it is a parameter
(`Env.step`) that answers every call with a status and a new driver state.
Logging (`LOG`) has no effect on the driver and is left out.
-/

namespace Esp32Wifi

/-! ## Data model -/

/-- The SDK status type `esp_err_t` (a C `int`). -/
abbrev esp_err_t := Int

/-- The SDK constant: `ESP_OK` is `0` in `esp_err.h`. -/
def ESP_OK : esp_err_t := 0

/-- The SDK constant: `ESP_ERR_WIFI_NOT_INIT` is `ESP_ERR_WIFI_BASE + 1` in `esp_wifi.h`. -/
def ESP_ERR_WIFI_NOT_INIT : esp_err_t := 0x3001

/-- The SDK constant: `ESP_ERR_WIFI_NOT_START` is `ESP_ERR_WIFI_BASE + 2` in `esp_wifi.h`. -/
def ESP_ERR_WIFI_NOT_START : esp_err_t := 0x3002

/-- C `false` of `stdbool.h`, as it converts to an integer type. -/
def c_false : Int := 0

/-- C `true` of `stdbool.h`, as it converts to an integer type. -/
def c_true : Int := 1

/-- Value of a C comparison `a == b` on status codes: `1` or `0`. -/
def c_eq (a b : esp_err_t) : Int := if a = b then 1 else 0

/-- The SDK enumeration `wifi_mode_t`: the driver's operating mode
(the spec's RadioRole: None, Station, AccessPoint, Both). -/
inductive wifi_mode_t where
  | WIFI_MODE_NULL
  | WIFI_MODE_STA
  | WIFI_MODE_AP
  | WIFI_MODE_APSTA
  deriving DecidableEq, Repr

/-- The SDK enumeration `wifi_interface_t`. -/
inductive wifi_interface_t where
  | WIFI_IF_STA
  | WIFI_IF_AP
  deriving DecidableEq, Repr

/-- The SDK enumeration `tcpip_adapter_if_t`. -/
inductive tcpip_adapter_if_t where
  | TCPIP_ADAPTER_IF_STA
  | TCPIP_ADAPTER_IF_AP
  deriving DecidableEq, Repr

/-- The SDK enumeration `wifi_auth_mode_t`, the two values the file uses. -/
inductive wifi_auth_mode_t where
  | WIFI_AUTH_OPEN
  | WIFI_AUTH_WPA2_PSK
  deriving DecidableEq, Repr

/-- A C string: its bytes without the terminating NUL. -/
abbrev cstr := List Nat

/-- The contents of a zeroed buffer of `n` bytes after `strncpy(buf, src, n)`. -/
def strncpy (src : cstr) (n : Nat) : List Nat :=
  src.take n ++ List.replicate (n - src.length) 0

/-- The `sta` member of `wifi_config_t`: `ssid[32]`, `password[64]`; the rest stays zero. -/
structure wifi_sta_config_t where
  ssid : List Nat
  password : List Nat
  deriving DecidableEq, Repr

/-- The `ap` member of `wifi_config_t`. -/
structure wifi_ap_config_t where
  ssid : List Nat
  password : List Nat
  channel : Nat
  authmode : wifi_auth_mode_t
  ssid_hidden : Nat
  max_connection : Nat
  beacon_interval : Nat
  deriving DecidableEq, Repr

/-- The union `wifi_config_t`, by the member that was filled in. -/
inductive wifi_config_t where
  | sta (c : wifi_sta_config_t)
  | ap (c : wifi_ap_config_t)
  deriving DecidableEq, Repr

/-- The SDK structure `tcpip_adapter_ip_info_t` (addresses as 32-bit numbers). -/
structure tcpip_adapter_ip_info_t where
  ip : Nat
  netmask : Nat
  gw : Nat
  deriving DecidableEq, Repr

/-- The SDK structure `dhcps_lease_t`. -/
structure dhcps_lease_t where
  enable : Bool
  start_ip : Nat
  end_ip : Nat
  deriving DecidableEq, Repr

/-- Modelled from the spec: the generated header `fw/src/miot_sys_config.h` is missing; the
station's configuration carries an enable flag, SSID, optional password and optional static
IP, netmask and gateway (`none` is a NULL pointer). -/
structure sys_config_wifi_sta where
  enable : Bool
  ssid : cstr
  pass : Option cstr
  ip : Option cstr
  netmask : Option cstr
  gw : Option cstr
  deriving DecidableEq, Repr

/-- Modelled from the spec: the generated header `fw/src/miot_sys_config.h` is missing; the
access point's configuration carries an enable flag, the keep-enabled flag, SSID, optional
password, channel, hidden flag, max-connections, addressing and the DHCP lease range. -/
structure sys_config_wifi_ap where
  enable : Bool
  keep_enabled : Bool
  ssid : cstr
  pass : Option cstr
  channel : Int
  hidden : Int
  max_connections : Int
  ip : Option cstr
  netmask : Option cstr
  gw : Option cstr
  dhcp_start : Option cstr
  dhcp_end : Option cstr
  deriving DecidableEq, Repr

/-- Modelled from the spec: the generated header `fw/src/miot_sys_config.h` is missing; the
WiFi configuration holds one record per radio. -/
structure sys_config_wifi where
  ap : sys_config_wifi_ap
  sta : sys_config_wifi_sta
  deriving DecidableEq, Repr

/-- Modelled from the spec: the header `fw/src/miot_init.h` is missing; the two values of
`enum miot_init_result` that `do_wifi` returns. -/
inductive miot_init_result where
  | MIOT_INIT_OK
  | MIOT_INIT_CONFIG_WIFI_INIT_FAILED
  deriving DecidableEq, Repr

/-! ## The external driver -/

/-- A call into the vendor SDK, with the arguments that vary.  `esp_wifi_init` always gets
the configuration naming `wifi_event_handler`, `esp_wifi_set_storage` always
`WIFI_STORAGE_RAM`, and `tcpip_adapter_dhcps_option` always `TCPIP_ADAPTER_OP_SET` of
`REQUESTED_IP_ADDRESS`. -/
inductive DriverCall where
  | esp_wifi_get_mode
  | esp_wifi_set_mode (mode : wifi_mode_t)
  | esp_wifi_init
  | esp_wifi_set_storage
  | esp_wifi_stop
  | esp_wifi_start
  | esp_wifi_connect
  | esp_wifi_set_config (ifx : wifi_interface_t) (conf : wifi_config_t)
  | tcpip_adapter_dhcpc_stop (ifx : tcpip_adapter_if_t)
  | tcpip_adapter_dhcpc_start (ifx : tcpip_adapter_if_t)
  | tcpip_adapter_set_ip_info (ifx : tcpip_adapter_if_t) (info : tcpip_adapter_ip_info_t)
  | tcpip_adapter_dhcps_stop (ifx : tcpip_adapter_if_t)
  | tcpip_adapter_dhcps_option (opt : dhcps_lease_t)
  | tcpip_adapter_dhcps_start (ifx : tcpip_adapter_if_t)
  deriving DecidableEq, Repr

/-- What the driver answers: the status, and for `esp_wifi_get_mode` the value it stored
through the out-pointer (`none` when it stored nothing). -/
structure Response where
  err : esp_err_t
  mode : Option wifi_mode_t
  deriving DecidableEq, Repr

/-- Everything external to the file: the driver's behaviour on a state of type `σ`, the
library functions `ipaddr_addr` and `miot_expand_mac_address_placeholders`, and the value an
uninitialised `wifi_mode_t` local happens to hold. -/
structure Env (σ : Type) where
  step : DriverCall → σ → Response × σ
  ipaddr_addr : Option cstr → Nat
  miot_expand_mac_address_placeholders : List Nat → List Nat
  indeterminate : wifi_mode_t

/-- The driver's state and the driver calls issued so far, oldest first. -/
structure World (σ : Type) where
  drv : σ
  trace : List DriverCall

/-- Issue one driver call: record it and let the driver answer. -/
def call {σ : Type} (env : Env σ) (c : DriverCall) (w : World σ) : Response × World σ :=
  ((env.step c w.drv).1, ⟨(env.step c w.drv).2, w.trace ++ [c]⟩)

/-! ## The functions of `esp32_wifi.c` -/

open wifi_mode_t in
/-- The function `miot_wifi_set_mode` (lines 58-83). -/
def miot_wifi_set_mode {σ : Type} (env : Env σ) (mode : wifi_mode_t) (w : World σ) :
    esp_err_t × World σ :=
  let a := call env (.esp_wifi_set_mode mode) w
  if a.1.err = ESP_ERR_WIFI_NOT_INIT then
    let b := call env .esp_wifi_init a.2
    if b.1.err ≠ ESP_OK then
      (c_false, b.2)
    else
      let c := call env .esp_wifi_set_storage b.2
      let d := call env (.esp_wifi_set_mode mode) c.2
      if d.1.err ≠ ESP_OK then (d.1.err, d.2) else (ESP_OK, d.2)
  else
    if a.1.err ≠ ESP_OK then (a.1.err, a.2) else (ESP_OK, a.2)

open wifi_mode_t in
/-- The function `miot_wifi_add_mode` (lines 85-104); `cur_mode` starts as `WIFI_MODE_NULL`. -/
def miot_wifi_add_mode {σ : Type} (env : Env σ) (mode : wifi_mode_t) (w : World σ) :
    esp_err_t × World σ :=
  let g := call env .esp_wifi_get_mode w
  let r := g.1.err
  let cur_mode := g.1.mode.getD WIFI_MODE_NULL
  if r ≠ ESP_OK ∧ r ≠ ESP_ERR_WIFI_NOT_INIT then
    (r, g.2)
  else if cur_mode = mode ∨ cur_mode = WIFI_MODE_APSTA then
    (ESP_OK, g.2)
  else if (cur_mode = WIFI_MODE_AP ∧ mode = WIFI_MODE_STA) ∨
      (cur_mode = WIFI_MODE_STA ∧ mode = WIFI_MODE_AP) then
    miot_wifi_set_mode env WIFI_MODE_APSTA g.2
  else
    miot_wifi_set_mode env mode g.2

open wifi_mode_t in
/-- The function `miot_wifi_remove_mode` (lines 106-128); `cur_mode` starts uninitialised. -/
def miot_wifi_remove_mode {σ : Type} (env : Env σ) (mode : wifi_mode_t) (w : World σ) :
    esp_err_t × World σ :=
  let g := call env .esp_wifi_get_mode w
  let r := g.1.err
  let cur_mode := g.1.mode.getD env.indeterminate
  if r = ESP_ERR_WIFI_NOT_INIT then
    (ESP_OK, g.2)
  else if (mode = WIFI_MODE_STA ∧ cur_mode = WIFI_MODE_AP) ∨
      (mode = WIFI_MODE_AP ∧ cur_mode = WIFI_MODE_STA) then
    (ESP_OK, g.2)
  else if mode = WIFI_MODE_APSTA ∨ (mode = WIFI_MODE_STA ∧ cur_mode = WIFI_MODE_STA) ∨
      (mode = WIFI_MODE_AP ∧ cur_mode = WIFI_MODE_AP) then
    ((call env .esp_wifi_stop g.2).1.err, (call env .esp_wifi_stop g.2).2)
  else
    miot_wifi_set_mode env (if mode = WIFI_MODE_STA then WIFI_MODE_AP else WIFI_MODE_STA) g.2

/-- Lines 166-188 of `miot_wifi_setup_sta`: set the station's config and connect, starting
the driver once when it answers `ESP_ERR_WIFI_NOT_START`. -/
def miot_wifi_setup_sta_connect {σ : Type} (env : Env σ) (wcfg : wifi_sta_config_t)
    (w : World σ) : Int × World σ :=
  let a := call env (.esp_wifi_set_config .WIFI_IF_STA (.sta wcfg)) w
  if a.1.err ≠ ESP_OK then
    (c_false, a.2)
  else
    let b := call env .esp_wifi_connect a.2
    if b.1.err = ESP_ERR_WIFI_NOT_START then
      let c := call env .esp_wifi_start b.2
      if c.1.err ≠ ESP_OK then
        (c_false, c.2)
      else
        let d := call env .esp_wifi_connect c.2
        (c_eq d.1.err ESP_OK, d.2)
    else
      (c_eq b.1.err ESP_OK, b.2)

open wifi_mode_t tcpip_adapter_if_t in
/-- The function `miot_wifi_setup_sta` (lines 130-189). -/
def miot_wifi_setup_sta {σ : Type} (env : Env σ) (cfg : sys_config_wifi_sta) (w : World σ) :
    Int × World σ :=
  if ¬ cfg.enable = true then
    let p := miot_wifi_remove_mode env WIFI_MODE_STA w
    (c_eq p.1 ESP_OK, p.2)
  else
    let p := miot_wifi_add_mode env WIFI_MODE_STA w
    if p.1 ≠ ESP_OK then
      (c_false, p.2)
    else
      let wcfg : wifi_sta_config_t :=
        ⟨strncpy cfg.ssid 32,
          match cfg.pass with
          | some s => strncpy s 64
          | none => List.replicate 64 0⟩
      if cfg.ip ≠ none ∧ cfg.netmask ≠ none then
        let a := call env (.tcpip_adapter_dhcpc_stop TCPIP_ADAPTER_IF_STA) p.2
        let info : tcpip_adapter_ip_info_t :=
          ⟨env.ipaddr_addr cfg.ip, env.ipaddr_addr cfg.netmask,
            if cfg.gw ≠ none then env.ipaddr_addr cfg.gw else 0⟩
        let b := call env (.tcpip_adapter_set_ip_info TCPIP_ADAPTER_IF_STA info) a.2
        if b.1.err ≠ ESP_OK then
          (c_false, b.2)
        else
          miot_wifi_setup_sta_connect env wcfg b.2
      else
        let a := call env (.tcpip_adapter_dhcpc_start TCPIP_ADAPTER_IF_STA) p.2
        miot_wifi_setup_sta_connect env wcfg a.2

open wifi_mode_t tcpip_adapter_if_t wifi_auth_mode_t in
/-- The function `miot_wifi_setup_ap` (lines 191-259). -/
def miot_wifi_setup_ap {σ : Type} (env : Env σ) (cfg : sys_config_wifi_ap) (w : World σ) :
    Int × World σ :=
  if ¬ cfg.enable = true then
    let p := miot_wifi_remove_mode env WIFI_MODE_AP w
    (c_eq p.1 ESP_OK, p.2)
  else
    let p := miot_wifi_add_mode env WIFI_MODE_AP w
    if p.1 ≠ ESP_OK then
      (c_false, p.2)
    else
      let apcfg : wifi_ap_config_t :=
        { ssid := env.miot_expand_mac_address_placeholders (strncpy cfg.ssid 32)
          password :=
            match cfg.pass with
            | some s => strncpy s 64
            | none => List.replicate 64 0
          authmode :=
            match cfg.pass with
            | some _ => WIFI_AUTH_WPA2_PSK
            | none => WIFI_AUTH_OPEN
          channel := (cfg.channel % 256).toNat
          ssid_hidden := if cfg.hidden ≠ 0 then 1 else 0
          max_connection := (cfg.max_connections % 256).toNat
          beacon_interval := 100 }
      let a := call env (.esp_wifi_set_config .WIFI_IF_AP (.ap apcfg)) p.2
      if a.1.err ≠ ESP_OK then
        (c_false, a.2)
      else
        let b := call env (.tcpip_adapter_dhcps_stop TCPIP_ADAPTER_IF_AP) a.2
        let info : tcpip_adapter_ip_info_t :=
          ⟨env.ipaddr_addr cfg.ip, env.ipaddr_addr cfg.netmask,
            if cfg.gw ≠ none then env.ipaddr_addr cfg.gw else 0⟩
        let c := call env (.tcpip_adapter_set_ip_info TCPIP_ADAPTER_IF_AP info) b.2
        if c.1.err ≠ ESP_OK then
          (c_false, c.2)
        else
          let opt : dhcps_lease_t :=
            ⟨true, env.ipaddr_addr cfg.dhcp_start, env.ipaddr_addr cfg.dhcp_end⟩
          let d := call env (.tcpip_adapter_dhcps_option opt) c.2
          if d.1.err ≠ ESP_OK then
            (c_false, d.2)
          else
            let e := call env (.tcpip_adapter_dhcps_start TCPIP_ADAPTER_IF_AP) d.2
            let f := call env .esp_wifi_start e.2
            (c_true, f.2)

open wifi_mode_t miot_init_result in
/-- The function `do_wifi` (lines 282-296); `&&` evaluates its right operand only when the
left one is non-zero. -/
def do_wifi {σ : Type} (env : Env σ) (cfg : sys_config_wifi) (w : World σ) :
    miot_init_result × World σ :=
  let p : Bool × World σ :=
    if cfg.ap.enable = true ∧ ¬ cfg.sta.enable = true then
      let a := miot_wifi_setup_ap env cfg.ap w
      (decide (a.1 ≠ 0), a.2)
    else if cfg.ap.enable = true ∧ cfg.sta.enable = true ∧ cfg.ap.keep_enabled = true then
      let m := miot_wifi_set_mode env WIFI_MODE_APSTA w
      if m.1 = ESP_OK then
        let a := miot_wifi_setup_ap env cfg.ap m.2
        if a.1 ≠ 0 then
          let s := miot_wifi_setup_sta env cfg.sta a.2
          (decide (s.1 ≠ 0), s.2)
        else
          (false, a.2)
      else
        (false, m.2)
    else if cfg.sta.enable = true then
      let s := miot_wifi_setup_sta env cfg.sta w
      (decide (s.1 ≠ 0), s.2)
    else
      (true, w)
  (if p.1 = true then MIOT_INIT_OK else MIOT_INIT_CONFIG_WIFI_INIT_FAILED, p.2)

/-! ## A reference driver for concrete scenarios -/

/-- State of the reference driver: whether `esp_wifi_init` has succeeded, whether the driver
is started, the operating mode, and the statuses that `esp_wifi_init` and
`esp_wifi_set_config(WIFI_IF_AP, ..)` answer with. -/
structure SimState where
  initialised : Bool
  started : Bool
  mode : wifi_mode_t
  init_result : esp_err_t
  ap_config_result : esp_err_t
  deriving DecidableEq, Repr

/-- The reference driver: every WiFi call answers `ESP_ERR_WIFI_NOT_INIT` until
`esp_wifi_init` has succeeded; a successful set-mode stores the mode that get-mode reports;
stop and start only toggle `started`; connect needs a started driver. -/
def simStep : DriverCall → SimState → Response × SimState
  | .esp_wifi_get_mode, s =>
    if s.initialised = true then (⟨ESP_OK, some s.mode⟩, s)
    else (⟨ESP_ERR_WIFI_NOT_INIT, none⟩, s)
  | .esp_wifi_set_mode m, s =>
    if s.initialised = true then
      (⟨ESP_OK, none⟩, ⟨true, s.started, m, s.init_result, s.ap_config_result⟩)
    else (⟨ESP_ERR_WIFI_NOT_INIT, none⟩, s)
  | .esp_wifi_init, s =>
    if s.init_result = ESP_OK then
      (⟨ESP_OK, none⟩, ⟨true, s.started, s.mode, s.init_result, s.ap_config_result⟩)
    else (⟨s.init_result, none⟩, s)
  | .esp_wifi_stop, s =>
    if s.initialised = true then
      (⟨ESP_OK, none⟩, ⟨true, false, s.mode, s.init_result, s.ap_config_result⟩)
    else (⟨ESP_ERR_WIFI_NOT_INIT, none⟩, s)
  | .esp_wifi_start, s =>
    if s.initialised = true then
      (⟨ESP_OK, none⟩, ⟨true, true, s.mode, s.init_result, s.ap_config_result⟩)
    else (⟨ESP_ERR_WIFI_NOT_INIT, none⟩, s)
  | .esp_wifi_connect, s =>
    if s.initialised = true then
      (if s.started = true then (⟨ESP_OK, none⟩, s) else (⟨ESP_ERR_WIFI_NOT_START, none⟩, s))
    else (⟨ESP_ERR_WIFI_NOT_INIT, none⟩, s)
  | .esp_wifi_set_config ifx _, s =>
    if s.initialised = true then
      (if ifx = .WIFI_IF_AP then (⟨s.ap_config_result, none⟩, s) else (⟨ESP_OK, none⟩, s))
    else (⟨ESP_ERR_WIFI_NOT_INIT, none⟩, s)
  | _, s => (⟨ESP_OK, none⟩, s)

/-- The reference environment: the reference driver, with `ipaddr_addr` answering `0`,
placeholders left as they are, and `WIFI_MODE_NULL` in uninitialised locals. -/
def simEnv : Env SimState :=
  ⟨simStep, fun _ => 0, fun s => s, .WIFI_MODE_NULL⟩

/-- A reference-driver world: an empty trace, `esp_wifi_init` and the access point's
set-config answering `ESP_OK`. -/
def simWorld (initialised started : Bool) (mode : wifi_mode_t) : World SimState :=
  ⟨⟨initialised, started, mode, ESP_OK, ESP_OK⟩, []⟩

/-- A reference-driver world that was never set up and whose `esp_wifi_init` answers
`ESP_ERR_NO_MEM` (`0x101`). -/
def simWorldInitFails : World SimState :=
  ⟨⟨false, false, .WIFI_MODE_NULL, 0x101, ESP_OK⟩, []⟩

/-- A reference-driver world in mode `mode` whose access-point set-config answers
`ESP_ERR_INVALID_ARG` (`0x102`). -/
def simWorldApConfigFails (mode : wifi_mode_t) : World SimState :=
  ⟨⟨true, false, mode, ESP_OK, 0x102⟩, []⟩

/-- A station configuration with DHCP addressing. -/
def staCfg (enable : Bool) : sys_config_wifi_sta :=
  ⟨enable, [104, 111, 109, 101], some [115, 101, 99, 114, 101, 116, 49, 50], none, none, none⟩

/-- An access-point configuration. -/
def apCfg (enable keep_enabled : Bool) : sys_config_wifi_ap :=
  ⟨enable, keep_enabled, [77, 105, 111, 116], none, 6, 0, 10,
    some [49, 46, 49, 46, 49, 46, 49], some [50, 53, 53, 46, 48, 46, 48, 46, 48], none,
    some [49, 46, 49, 46, 49, 46, 50], some [49, 46, 49, 46, 49, 46, 57]⟩

/-- The targets of the `esp_wifi_set_mode` calls in a trace, oldest first. -/
def setModeTargets : List DriverCall → List wifi_mode_t
  | [] => []
  | .esp_wifi_set_mode m :: t => m :: setModeTargets t
  | _ :: t => setModeTargets t

/-- The number of `esp_wifi_stop` calls in a trace. -/
def stopCount : List DriverCall → Nat
  | [] => 0
  | .esp_wifi_stop :: t => stopCount t + 1
  | _ :: t => stopCount t

/-- One per-radio request of the spec: enable goes through `miot_wifi_add_mode`, disable
through `miot_wifi_remove_mode`. -/
def applyRequest {σ : Type} (env : Env σ) (enable : Bool) (m : wifi_mode_t) (w : World σ) :
    esp_err_t × World σ :=
  if enable = true then miot_wifi_add_mode env m w else miot_wifi_remove_mode env m w

/-- Driver model: a successful set-mode makes the next get-mode report that mode. -/
def SetModeIsReported {σ : Type} (env : Env σ) : Prop :=
  ∀ (s : σ) (t : wifi_mode_t), (env.step (.esp_wifi_set_mode t) s).1.err = ESP_OK →
    (env.step .esp_wifi_get_mode (env.step (.esp_wifi_set_mode t) s).2).1 = ⟨ESP_OK, some t⟩

/-- Driver model: get-mode is a query, it leaves the driver's state as it is. -/
def GetModeIsQuery {σ : Type} (env : Env σ) : Prop :=
  ∀ s : σ, (env.step .esp_wifi_get_mode s).2 = s

/-- Driver state in which get-mode reports `WIFI_MODE_APSTA`. -/
def ReportsApsta {σ : Type} (env : Env σ) (s : σ) : Prop :=
  (env.step .esp_wifi_get_mode s).1 = ⟨ESP_OK, some .WIFI_MODE_APSTA⟩

/-- Driver model: only a set-mode call changes the mode that get-mode reports (stated for
the mode `WIFI_MODE_APSTA`). -/
def ModePersists {σ : Type} (env : Env σ) : Prop :=
  ∀ (c : DriverCall) (s : σ), setModeTargets [c] = [] → ReportsApsta env s →
    ReportsApsta env (env.step c s).2

/-- From world `w` to world `v` no set-mode call was issued, and in `v` the driver reports
`WIFI_MODE_APSTA`. -/
def Quiet {σ : Type} (env : Env σ) (w v : World σ) : Prop :=
  ReportsApsta env v.drv ∧ ∃ l : List DriverCall, v.trace = w.trace ++ l ∧ setModeTargets l = []

/-! ## Basic facts -/

section Basic

variable {σ : Type} (env : Env σ)

theorem call_fst (c : DriverCall) (w : World σ) : (call env c w).1 = (env.step c w.drv).1 :=
  rfl

theorem call_snd (c : DriverCall) (w : World σ) :
    (call env c w).2 = ⟨(env.step c w.drv).2, w.trace ++ [c]⟩ :=
  rfl

/-- On a driver that does not answer `ESP_ERR_WIFI_NOT_INIT`, `miot_wifi_set_mode` is one
`esp_wifi_set_mode` call whose status it returns. -/
theorem set_mode_of_init (mode : wifi_mode_t) (w : World σ)
    (h : (env.step (.esp_wifi_set_mode mode) w.drv).1.err ≠ ESP_ERR_WIFI_NOT_INIT) :
    miot_wifi_set_mode env mode w =
      ((env.step (.esp_wifi_set_mode mode) w.drv).1.err,
        ⟨(env.step (.esp_wifi_set_mode mode) w.drv).2, w.trace ++ [.esp_wifi_set_mode mode]⟩) := by
  simp only [miot_wifi_set_mode, call_fst, call_snd, if_neg h]
  by_cases h0 : (env.step (.esp_wifi_set_mode mode) w.drv).1.err = ESP_OK
  · simp [h0]
  · simp [h0]

theorem setModeTargets_append (a b : List DriverCall) :
    setModeTargets (a ++ b) = setModeTargets a ++ setModeTargets b := by
  induction a with
  | nil => rfl
  | cons c t ih => cases c <;> simp [setModeTargets, ih]

theorem quiet_refl (w : World σ) (h : ReportsApsta env w.drv) : Quiet env w w :=
  ⟨h, [], by simp, rfl⟩

theorem quiet_call (hp : ModePersists env) (c : DriverCall) (hc : setModeTargets [c] = [])
    (w v : World σ) (h : Quiet env w v) : Quiet env w (call env c v).2 := by
  obtain ⟨hr, l, hl, hs⟩ := h
  refine ⟨hp c v.drv hc hr, l ++ [c], ?_, ?_⟩
  · simp [call_snd, hl]
  · rw [setModeTargets_append, hs, hc]; rfl

/-- When the driver reports `WIFI_MODE_APSTA`, `miot_wifi_add_mode` returns `ESP_OK` after
the get-mode query alone. -/
theorem quiet_add_mode (hp : ModePersists env) (mode : wifi_mode_t) (w v : World σ)
    (h : Quiet env w v) :
    (miot_wifi_add_mode env mode v).1 = ESP_OK ∧ Quiet env w (miot_wifi_add_mode env mode v).2 := by
  have hr : (env.step .esp_wifi_get_mode v.drv).1 = ⟨ESP_OK, some .WIFI_MODE_APSTA⟩ := h.1
  have e : miot_wifi_add_mode env mode v = (ESP_OK, (call env .esp_wifi_get_mode v).2) := by
    simp [miot_wifi_add_mode, call_fst, hr]
  rw [e]
  exact ⟨rfl, quiet_call env hp .esp_wifi_get_mode rfl w v h⟩

theorem quiet_setup_sta_connect (hp : ModePersists env) (wcfg : wifi_sta_config_t)
    (w v : World σ) (h : Quiet env w v) :
    Quiet env w (miot_wifi_setup_sta_connect env wcfg v).2 := by
  simp only [miot_wifi_setup_sta_connect]
  split_ifs <;> try dsimp only
  all_goals
    repeat first
      | exact h
      | rfl
      | apply quiet_call env hp

theorem quiet_setup_sta (hp : ModePersists env) (cfg : sys_config_wifi_sta)
    (hen : cfg.enable = true) (w v : World σ) (h : Quiet env w v) :
    Quiet env w (miot_wifi_setup_sta env cfg v).2 := by
  obtain ⟨ha, qa⟩ := quiet_add_mode env hp .WIFI_MODE_STA w v h
  simp only [miot_wifi_setup_sta, hen, not_true_eq_false, if_false, ne_eq, ha]
  split_ifs <;> try dsimp only
  all_goals
    repeat first
      | exact qa
      | rfl
      | apply quiet_setup_sta_connect env hp
      | apply quiet_call env hp

theorem quiet_setup_ap (hp : ModePersists env) (cfg : sys_config_wifi_ap)
    (hen : cfg.enable = true) (w v : World σ) (h : Quiet env w v) :
    Quiet env w (miot_wifi_setup_ap env cfg v).2 := by
  obtain ⟨ha, qa⟩ := quiet_add_mode env hp .WIFI_MODE_AP w v h
  simp only [miot_wifi_setup_ap, hen, not_true_eq_false, if_false, ne_eq, ha]
  split_ifs <;> try dsimp only
  all_goals
    repeat first
      | exact qa
      | rfl
      | apply quiet_call env hp

/-- Unless `esp_wifi_init` fails after a not-initialised answer, `miot_wifi_set_mode` of
`WIFI_MODE_APSTA` issues set-mode calls with that target only, and when it returns `ESP_OK`
the driver reports `WIFI_MODE_APSTA`. -/
theorem set_mode_apsta_outcome (hrep : SetModeIsReported env) (w : World σ)
    (hinit : (env.step (.esp_wifi_set_mode .WIFI_MODE_APSTA) w.drv).1.err
        = ESP_ERR_WIFI_NOT_INIT →
      (env.step .esp_wifi_init
        (env.step (.esp_wifi_set_mode .WIFI_MODE_APSTA) w.drv).2).1.err = ESP_OK) :
    ((miot_wifi_set_mode env .WIFI_MODE_APSTA w).1 = ESP_OK →
      ReportsApsta env (miot_wifi_set_mode env .WIFI_MODE_APSTA w).2.drv) ∧
    ∃ l : List DriverCall,
      (miot_wifi_set_mode env .WIFI_MODE_APSTA w).2.trace = w.trace ++ l ∧
      ∀ t ∈ setModeTargets l, t = .WIFI_MODE_APSTA := by
  by_cases h1 : (env.step (.esp_wifi_set_mode .WIFI_MODE_APSTA) w.drv).1.err
      = ESP_ERR_WIFI_NOT_INIT
  · have h2 := hinit h1
    by_cases h3 : (env.step (.esp_wifi_set_mode .WIFI_MODE_APSTA)
        (env.step .esp_wifi_set_storage (env.step .esp_wifi_init
          (env.step (.esp_wifi_set_mode .WIFI_MODE_APSTA) w.drv).2).2).2).1.err = ESP_OK
    · refine ⟨fun _ => ?_, [.esp_wifi_set_mode .WIFI_MODE_APSTA, .esp_wifi_init,
        .esp_wifi_set_storage, .esp_wifi_set_mode .WIFI_MODE_APSTA], ?_, ?_⟩
      · have r := hrep _ _ h3
        simpa [miot_wifi_set_mode, call_fst, call_snd, h1, h2, h3, ReportsApsta] using r
      · simp [miot_wifi_set_mode, call_fst, call_snd, h1, h2, h3]
      · simp [setModeTargets]
    · refine ⟨fun h => ?_, [.esp_wifi_set_mode .WIFI_MODE_APSTA, .esp_wifi_init,
        .esp_wifi_set_storage, .esp_wifi_set_mode .WIFI_MODE_APSTA], ?_, ?_⟩
      · simp [miot_wifi_set_mode, call_fst, call_snd, h1, h2, h3] at h
      · simp [miot_wifi_set_mode, call_fst, call_snd, h1, h2, h3]
      · simp [setModeTargets]
  · rw [set_mode_of_init env _ w h1]
    refine ⟨fun h => hrep _ _ h, [.esp_wifi_set_mode .WIFI_MODE_APSTA], rfl, ?_⟩
    simp [setModeTargets]

/-- Outside the failing-init path, with both radios enabled and keep-enabled set, every
set-mode call that `do_wifi` issues has target `WIFI_MODE_APSTA`, over a driver whose
successful set-mode is reported by get-mode until the next set-mode. -/
theorem do_wifi_both_targets_apsta (hp : ModePersists env) (hrep : SetModeIsReported env)
    (cfg : sys_config_wifi) (w : World σ) (hap : cfg.ap.enable = true)
    (hsta : cfg.sta.enable = true) (hkeep : cfg.ap.keep_enabled = true)
    (hinit : (env.step (.esp_wifi_set_mode .WIFI_MODE_APSTA) w.drv).1.err
        = ESP_ERR_WIFI_NOT_INIT →
      (env.step .esp_wifi_init
        (env.step (.esp_wifi_set_mode .WIFI_MODE_APSTA) w.drv).2).1.err = ESP_OK) :
    ∃ l : List DriverCall, (do_wifi env cfg w).2.trace = w.trace ++ l ∧
      ∀ t ∈ setModeTargets l, t = .WIFI_MODE_APSTA := by
  obtain ⟨hr, l1, hl1, ht1⟩ := set_mode_apsta_outcome env hrep w hinit
  by_cases hm : (miot_wifi_set_mode env .WIFI_MODE_APSTA w).1 = ESP_OK
  · have qa := quiet_setup_ap env hp cfg.ap hap _ _ (quiet_refl env _ (hr hm))
    have qs := quiet_setup_sta env hp cfg.sta hsta _ _ qa
    have fin : ∀ v : World σ, Quiet env (miot_wifi_set_mode env .WIFI_MODE_APSTA w).2 v →
        ∃ l : List DriverCall, v.trace = w.trace ++ l ∧
          ∀ t ∈ setModeTargets l, t = .WIFI_MODE_APSTA := by
      intro v hv
      obtain ⟨_, l2, hl2, ht2⟩ := hv
      refine ⟨l1 ++ l2, ?_, ?_⟩
      · rw [hl2, hl1, List.append_assoc]
      · rw [setModeTargets_append, ht2, List.append_nil]
        exact ht1
    by_cases h2 :
        (miot_wifi_setup_ap env cfg.ap (miot_wifi_set_mode env .WIFI_MODE_APSTA w).2).1 = 0
    · have e : (do_wifi env cfg w).2
          = (miot_wifi_setup_ap env cfg.ap (miot_wifi_set_mode env .WIFI_MODE_APSTA w).2).2 := by
        simp [do_wifi, hap, hsta, hkeep, hm, h2]
      rw [e]
      exact fin _ qa
    · have e : (do_wifi env cfg w).2
          = (miot_wifi_setup_sta env cfg.sta (miot_wifi_setup_ap env cfg.ap
              (miot_wifi_set_mode env .WIFI_MODE_APSTA w).2).2).2 := by
        simp [do_wifi, hap, hsta, hkeep, hm, h2]
      rw [e]
      exact fin _ qs
  · have e : (do_wifi env cfg w).2 = (miot_wifi_set_mode env .WIFI_MODE_APSTA w).2 := by
      simp [do_wifi, hap, hsta, hkeep, hm]
    rw [e]
    exact ⟨l1, hl1, ht1⟩

/-- Where the radio being disabled is not active because the driver is not set up or the
other radio alone is active, `miot_wifi_remove_mode` returns `ESP_OK` after the get-mode
query alone. -/
theorem remove_mode_inactive_noop (w : World σ) (m : wifi_mode_t)
    (h : (env.step .esp_wifi_get_mode w.drv).1.err = ESP_ERR_WIFI_NOT_INIT ∨
      (m = .WIFI_MODE_STA ∧ (env.step .esp_wifi_get_mode w.drv).1.mode = some .WIFI_MODE_AP) ∨
      (m = .WIFI_MODE_AP ∧ (env.step .esp_wifi_get_mode w.drv).1.mode = some .WIFI_MODE_STA)) :
    miot_wifi_remove_mode env m w = (ESP_OK, (call env .esp_wifi_get_mode w).2) := by
  rcases h with h | ⟨rfl, h⟩ | ⟨rfl, h⟩
  · simp [miot_wifi_remove_mode, call_fst, h]
  · simp [miot_wifi_remove_mode, call_fst, h]
  · simp [miot_wifi_remove_mode, call_fst, h]

theorem simEnv_persists : ModePersists simEnv := by
  intro c s hc hr
  cases c <;> simp only [simEnv, simStep, ReportsApsta, setModeTargets] at hc hr ⊢ <;>
    first
      | exact hr
      | (revert hr; split_ifs <;> simp_all)

theorem simEnv_reported : SetModeIsReported simEnv := by
  intro s t h
  simp only [simEnv, simStep] at h ⊢
  by_cases hi : s.initialised = true
  · simp [hi]
  · simp [hi, ESP_ERR_WIFI_NOT_INIT, ESP_OK] at h

theorem simEnv_query : GetModeIsQuery simEnv := by
  intro s
  simp only [simEnv, simStep]
  by_cases hi : s.initialised = true
  · simp [hi]
  · simp [hi]

/-- The reference driver at boot, with a working `esp_wifi_init`: the set-mode calls of
`do_wifi` for both radios have target `WIFI_MODE_APSTA` only. -/
theorem do_wifi_both_targets_apsta_boot :
    ∃ l : List DriverCall,
      (do_wifi simEnv ⟨apCfg true true, staCfg true⟩ (simWorld false false .WIFI_MODE_NULL)).2.trace
        = (simWorld false false .WIFI_MODE_NULL).trace ++ l ∧
      ∀ t ∈ setModeTargets l, t = .WIFI_MODE_APSTA :=
  do_wifi_both_targets_apsta simEnv simEnv_persists simEnv_reported
    ⟨apCfg true true, staCfg true⟩ (simWorld false false .WIFI_MODE_NULL) rfl rfl rfl
    (by decide)

end Basic

/-! ## The mode arbiter -/

open wifi_mode_t

/-- C1: for a requested single role `m` and a current mode `cur` reported by get-mode,
`miot_wifi_add_mode m` hands over to `miot_wifi_set_mode` exactly once, with target `m`
when `cur` is `WIFI_MODE_NULL` and with target `WIFI_MODE_APSTA` when `cur` is the other
single role (on a driver that does not answer not-initialised this is exactly one
`esp_wifi_set_mode` call with that target); when `cur` is `m` or `WIFI_MODE_APSTA` it
returns `ESP_OK` and nothing but the get-mode query reaches the driver. -/
theorem add_mode_target {σ : Type} (env : Env σ) (w : World σ) (m cur : wifi_mode_t)
    (hm : m = WIFI_MODE_STA ∨ m = WIFI_MODE_AP)
    (hget : (env.step .esp_wifi_get_mode w.drv).1 = ⟨ESP_OK, some cur⟩) :
    (cur = WIFI_MODE_NULL →
      miot_wifi_add_mode env m w = miot_wifi_set_mode env m (call env .esp_wifi_get_mode w).2 ∧
      ((env.step (.esp_wifi_set_mode m) (env.step .esp_wifi_get_mode w.drv).2).1.err
          ≠ ESP_ERR_WIFI_NOT_INIT →
        (miot_wifi_add_mode env m w).2.trace
          = w.trace ++ [.esp_wifi_get_mode, .esp_wifi_set_mode m])) ∧
    (cur ≠ WIFI_MODE_NULL ∧ cur ≠ m ∧ cur ≠ WIFI_MODE_APSTA →
      miot_wifi_add_mode env m w
        = miot_wifi_set_mode env WIFI_MODE_APSTA (call env .esp_wifi_get_mode w).2 ∧
      ((env.step (.esp_wifi_set_mode WIFI_MODE_APSTA)
          (env.step .esp_wifi_get_mode w.drv).2).1.err ≠ ESP_ERR_WIFI_NOT_INIT →
        (miot_wifi_add_mode env m w).2.trace
          = w.trace ++ [.esp_wifi_get_mode, .esp_wifi_set_mode WIFI_MODE_APSTA])) ∧
    (cur = m ∨ cur = WIFI_MODE_APSTA →
      (miot_wifi_add_mode env m w).1 = ESP_OK ∧
      (miot_wifi_add_mode env m w).2.trace = w.trace ++ [.esp_wifi_get_mode] ∧
      (miot_wifi_add_mode env m w).2.drv = (env.step .esp_wifi_get_mode w.drv).2) := by
  have key : ∀ t : wifi_mode_t,
      miot_wifi_add_mode env m w = miot_wifi_set_mode env t (call env .esp_wifi_get_mode w).2 →
      (env.step (.esp_wifi_set_mode t) (env.step .esp_wifi_get_mode w.drv).2).1.err
          ≠ ESP_ERR_WIFI_NOT_INIT →
      (miot_wifi_add_mode env m w).2.trace
        = w.trace ++ [.esp_wifi_get_mode, .esp_wifi_set_mode t] := by
    intro t ht hni
    rw [ht, call_snd, set_mode_of_init env t _ hni]
    simp
  refine ⟨fun hc => ?_, fun hc => ?_, fun hc => ?_⟩
  · have e : miot_wifi_add_mode env m w
        = miot_wifi_set_mode env m (call env .esp_wifi_get_mode w).2 := by
      subst hc
      rcases hm with rfl | rfl <;>
        simp [miot_wifi_add_mode, call_fst, hget]
    exact ⟨e, key m e⟩
  · have e : miot_wifi_add_mode env m w
        = miot_wifi_set_mode env WIFI_MODE_APSTA (call env .esp_wifi_get_mode w).2 := by
      obtain ⟨h1, h2, h3⟩ := hc
      rcases hm with rfl | rfl <;> cases cur <;>
        simp_all [miot_wifi_add_mode, call_fst]
    exact ⟨e, key WIFI_MODE_APSTA e⟩
  · rcases hc with rfl | rfl
    · simp [miot_wifi_add_mode, call_fst, call_snd, hget]
    · simp [miot_wifi_add_mode, call_fst, call_snd, hget]

/-- Witness of C1 on the reference driver: station requested while the mode is none. -/
theorem add_mode_target_witness :
    (miot_wifi_add_mode simEnv WIFI_MODE_STA (simWorld true false WIFI_MODE_NULL)).2.trace
      = [.esp_wifi_get_mode, .esp_wifi_set_mode WIFI_MODE_STA] :=
  ((add_mode_target simEnv (simWorld true false WIFI_MODE_NULL) WIFI_MODE_STA WIFI_MODE_NULL
    (Or.inl rfl) (by decide)).1 rfl).2 (by decide)

/-- C2: on an initialised driver (get-mode answers `ESP_OK`, set-mode does not answer
not-initialised) whose mode is `WIFI_MODE_APSTA`, `miot_wifi_remove_mode(WIFI_MODE_STA)`
issues, after the get-mode query, exactly one `esp_wifi_set_mode(WIFI_MODE_AP)` and no stop,
and `miot_wifi_remove_mode(WIFI_MODE_AP)` exactly one `esp_wifi_set_mode(WIFI_MODE_STA)`
and no stop; each returns the status of its set-mode call. -/
theorem remove_mode_from_apsta {σ : Type} (env : Env σ) (w : World σ)
    (hget : (env.step .esp_wifi_get_mode w.drv).1 = ⟨ESP_OK, some WIFI_MODE_APSTA⟩)
    (hinit : ∀ t : wifi_mode_t,
      (env.step (.esp_wifi_set_mode t) (env.step .esp_wifi_get_mode w.drv).2).1.err
        ≠ ESP_ERR_WIFI_NOT_INIT) :
    ((miot_wifi_remove_mode env WIFI_MODE_STA w).2.trace
        = w.trace ++ [.esp_wifi_get_mode, .esp_wifi_set_mode WIFI_MODE_AP] ∧
      (miot_wifi_remove_mode env WIFI_MODE_STA w).1
        = (env.step (.esp_wifi_set_mode WIFI_MODE_AP)
            (env.step .esp_wifi_get_mode w.drv).2).1.err) ∧
    ((miot_wifi_remove_mode env WIFI_MODE_AP w).2.trace
        = w.trace ++ [.esp_wifi_get_mode, .esp_wifi_set_mode WIFI_MODE_STA] ∧
      (miot_wifi_remove_mode env WIFI_MODE_AP w).1
        = (env.step (.esp_wifi_set_mode WIFI_MODE_STA)
            (env.step .esp_wifi_get_mode w.drv).2).1.err) := by
  have e1 : miot_wifi_remove_mode env WIFI_MODE_STA w
      = miot_wifi_set_mode env WIFI_MODE_AP (call env .esp_wifi_get_mode w).2 := by
    simp [miot_wifi_remove_mode, call_fst, hget, ESP_OK, ESP_ERR_WIFI_NOT_INIT]
  have e2 : miot_wifi_remove_mode env WIFI_MODE_AP w
      = miot_wifi_set_mode env WIFI_MODE_STA (call env .esp_wifi_get_mode w).2 := by
    simp [miot_wifi_remove_mode, call_fst, hget, ESP_OK, ESP_ERR_WIFI_NOT_INIT]
  rw [e1, e2, call_snd, set_mode_of_init env WIFI_MODE_AP _ (hinit _),
    set_mode_of_init env WIFI_MODE_STA _ (hinit _)]
  simp

/-- Witness of C2 on the reference driver, started in mode `WIFI_MODE_APSTA`. -/
theorem remove_mode_from_apsta_witness :
    (miot_wifi_remove_mode simEnv WIFI_MODE_STA (simWorld true true WIFI_MODE_APSTA)).2.trace
      = [.esp_wifi_get_mode, .esp_wifi_set_mode WIFI_MODE_AP] :=
  (remove_mode_from_apsta simEnv (simWorld true true WIFI_MODE_APSTA) (by decide)
    (by intro t; cases t <;> decide)).1.1

/-- C3: on an initialised driver (get-mode does not answer not-initialised) whose mode is
exactly the single role `m`, `miot_wifi_remove_mode m` issues, after the get-mode query,
exactly one `esp_wifi_stop` and no set-mode, and returns the status of that stop call. -/
theorem remove_mode_only_radio {σ : Type} (env : Env σ) (w : World σ) (m : wifi_mode_t)
    (hm : m = WIFI_MODE_STA ∨ m = WIFI_MODE_AP)
    (herr : (env.step .esp_wifi_get_mode w.drv).1.err ≠ ESP_ERR_WIFI_NOT_INIT)
    (hcur : (env.step .esp_wifi_get_mode w.drv).1.mode = some m) :
    (miot_wifi_remove_mode env m w).2.trace = w.trace ++ [.esp_wifi_get_mode, .esp_wifi_stop] ∧
    (miot_wifi_remove_mode env m w).1
      = (env.step .esp_wifi_stop (env.step .esp_wifi_get_mode w.drv).2).1.err ∧
    (miot_wifi_remove_mode env m w).2.drv
      = (env.step .esp_wifi_stop (env.step .esp_wifi_get_mode w.drv).2).2 := by
  rcases hm with rfl | rfl <;>
    simp [miot_wifi_remove_mode, call_fst, call_snd, herr, hcur]

/-- Witness of C3 on the reference driver, started in station-only mode. -/
theorem remove_mode_only_radio_witness :
    (miot_wifi_remove_mode simEnv WIFI_MODE_STA (simWorld true true WIFI_MODE_STA)).2.trace
      = [.esp_wifi_get_mode, .esp_wifi_stop] :=
  (remove_mode_only_radio simEnv (simWorld true true WIFI_MODE_STA) WIFI_MODE_STA
    (Or.inl rfl) (by decide) (by decide)).1

/-- C4, the code at the failing input: on an initialised reference driver whose mode is
`WIFI_MODE_NULL`, `miot_wifi_remove_mode(WIFI_MODE_STA)` returns `ESP_OK` after issuing
`esp_wifi_set_mode(WIFI_MODE_AP)`, which leaves the driver in access-point mode. -/
theorem remove_mode_from_null_sets_other :
    (miot_wifi_remove_mode simEnv WIFI_MODE_STA (simWorld true false WIFI_MODE_NULL)).1 = ESP_OK ∧
    (miot_wifi_remove_mode simEnv WIFI_MODE_STA (simWorld true false WIFI_MODE_NULL)).2.trace
      = [.esp_wifi_get_mode, .esp_wifi_set_mode WIFI_MODE_AP] ∧
    (miot_wifi_remove_mode simEnv WIFI_MODE_STA (simWorld true false WIFI_MODE_NULL)).2.drv.mode
      = WIFI_MODE_AP := by
  decide

/-- C5 as stated fails: on the reference driver in station-only mode, a station-disable
request stops the driver, and the same request applied again from the resulting state
issues `esp_wifi_stop` once more. -/
theorem disable_twice_stops_twice :
    (applyRequest simEnv false WIFI_MODE_STA (simWorld true true WIFI_MODE_STA)).2.trace
      = [.esp_wifi_get_mode, .esp_wifi_stop] ∧
    (applyRequest simEnv false WIFI_MODE_STA
        (applyRequest simEnv false WIFI_MODE_STA (simWorld true true WIFI_MODE_STA)).2).2.trace
      = [.esp_wifi_get_mode, .esp_wifi_stop, .esp_wifi_get_mode, .esp_wifi_stop] := by
  decide

/-- C5 amended: over a driver whose get-mode is a query and whose successful set-mode is
reported by get-mode, from every reported mode `cur` on an initialised driver and for every
per-radio request other than disabling the only active radio (`cur = m`), if the first
application returned `ESP_OK` then the same request applied again from the resulting state
returns `ESP_OK` and issues nothing but the get-mode query: no set-mode, no stop. -/
theorem request_idempotent {σ : Type} (env : Env σ) (w : World σ) (enable : Bool)
    (m cur : wifi_mode_t) (hm : m = WIFI_MODE_STA ∨ m = WIFI_MODE_AP)
    (hquery : GetModeIsQuery env) (hrep : SetModeIsReported env)
    (hget : (env.step .esp_wifi_get_mode w.drv).1 = ⟨ESP_OK, some cur⟩)
    (hinit : ∀ t : wifi_mode_t,
      (env.step (.esp_wifi_set_mode t) w.drv).1.err ≠ ESP_ERR_WIFI_NOT_INIT)
    (hok : (applyRequest env enable m w).1 = ESP_OK)
    (hexc : ¬ (enable = false ∧ cur = m)) :
    (applyRequest env enable m (applyRequest env enable m w).2).1 = ESP_OK ∧
    (applyRequest env enable m (applyRequest env enable m w).2).2.trace
      = (applyRequest env enable m w).2.trace ++ [.esp_wifi_get_mode] := by
  have hq : (env.step .esp_wifi_get_mode w.drv).2 = w.drv := hquery w.drv
  -- the first application either changes nothing or is one successful set-mode
  have second : ∀ (x : esp_err_t × World σ) (c : wifi_mode_t),
      (env.step .esp_wifi_get_mode x.2.drv).1 = ⟨ESP_OK, some c⟩ →
      (enable = true → c = m ∨ c = WIFI_MODE_APSTA) →
      (enable = false → (m = WIFI_MODE_STA ∧ c = WIFI_MODE_AP) ∨
        (m = WIFI_MODE_AP ∧ c = WIFI_MODE_STA)) →
      (applyRequest env enable m x.2).1 = ESP_OK ∧
      (applyRequest env enable m x.2).2.trace = x.2.trace ++ [.esp_wifi_get_mode] := by
    intro x c hx hen hdis
    cases enable
    · have h := hdis rfl
      rcases h with ⟨rfl, rfl⟩ | ⟨rfl, rfl⟩ <;>
        simp [applyRequest, miot_wifi_remove_mode, call_fst, call_snd, hx, ESP_OK,
          ESP_ERR_WIFI_NOT_INIT]
    · have h := hen rfl
      rcases h with rfl | rfl <;>
        simp [applyRequest, miot_wifi_add_mode, call_fst, call_snd, hx]
  have via_set : ∀ t : wifi_mode_t,
      applyRequest env enable m w = miot_wifi_set_mode env t (call env .esp_wifi_get_mode w).2 →
      (env.step .esp_wifi_get_mode (applyRequest env enable m w).2.drv).1 = ⟨ESP_OK, some t⟩ := by
    intro t ht
    have hi : (env.step (.esp_wifi_set_mode t) (call env .esp_wifi_get_mode w).2.drv).1.err
        ≠ ESP_ERR_WIFI_NOT_INIT := by
      rw [call_snd]; simp only [hq]; exact hinit t
    rw [ht, set_mode_of_init env t _ hi] at hok
    rw [ht, set_mode_of_init env t _ hi]
    exact hrep _ t hok
  have unchanged : applyRequest env enable m w = (ESP_OK, (call env .esp_wifi_get_mode w).2) →
      (env.step .esp_wifi_get_mode (applyRequest env enable m w).2.drv).1 = ⟨ESP_OK, some cur⟩ := by
    intro h
    rw [h, call_snd]
    simp only [hq]
    exact hget
  cases enable
  · rcases hm with rfl | rfl
    · cases cur
      · exact second _ WIFI_MODE_AP (via_set _
          (by simp [applyRequest, miot_wifi_remove_mode, call_fst, hget, ESP_OK,
            ESP_ERR_WIFI_NOT_INIT])) (by simp) (by simp)
      · exact absurd ⟨rfl, rfl⟩ hexc
      · exact second _ _ (unchanged
          (by simp [applyRequest, miot_wifi_remove_mode, call_fst, hget, ESP_OK,
            ESP_ERR_WIFI_NOT_INIT])) (by simp) (by simp)
      · exact second _ WIFI_MODE_AP (via_set _
          (by simp [applyRequest, miot_wifi_remove_mode, call_fst, hget, ESP_OK,
            ESP_ERR_WIFI_NOT_INIT])) (by simp) (by simp)
    · cases cur
      · exact second _ WIFI_MODE_STA (via_set _
          (by simp [applyRequest, miot_wifi_remove_mode, call_fst, hget, ESP_OK,
            ESP_ERR_WIFI_NOT_INIT])) (by simp) (by simp)
      · exact second _ _ (unchanged
          (by simp [applyRequest, miot_wifi_remove_mode, call_fst, hget, ESP_OK,
            ESP_ERR_WIFI_NOT_INIT])) (by simp) (by simp)
      · exact absurd ⟨rfl, rfl⟩ hexc
      · exact second _ WIFI_MODE_STA (via_set _
          (by simp [applyRequest, miot_wifi_remove_mode, call_fst, hget, ESP_OK,
            ESP_ERR_WIFI_NOT_INIT])) (by simp) (by simp)
  · rcases hm with rfl | rfl
    · cases cur
      · exact second _ WIFI_MODE_STA (via_set _
          (by simp [applyRequest, miot_wifi_add_mode, call_fst, hget])) (by simp) (by simp)
      · exact second _ _ (unchanged
          (by simp [applyRequest, miot_wifi_add_mode, call_fst, hget])) (by simp) (by simp)
      · exact second _ WIFI_MODE_APSTA (via_set _
          (by simp [applyRequest, miot_wifi_add_mode, call_fst, hget])) (by simp) (by simp)
      · exact second _ _ (unchanged
          (by simp [applyRequest, miot_wifi_add_mode, call_fst, hget])) (by simp) (by simp)
    · cases cur
      · exact second _ WIFI_MODE_AP (via_set _
          (by simp [applyRequest, miot_wifi_add_mode, call_fst, hget])) (by simp) (by simp)
      · exact second _ WIFI_MODE_APSTA (via_set _
          (by simp [applyRequest, miot_wifi_add_mode, call_fst, hget])) (by simp) (by simp)
      · exact second _ _ (unchanged
          (by simp [applyRequest, miot_wifi_add_mode, call_fst, hget])) (by simp) (by simp)
      · exact second _ _ (unchanged
          (by simp [applyRequest, miot_wifi_add_mode, call_fst, hget])) (by simp) (by simp)

/-- Witness of C5 amended on the reference driver: station-disable from `WIFI_MODE_APSTA`. -/
theorem request_idempotent_witness :
    (applyRequest simEnv false WIFI_MODE_STA
        (applyRequest simEnv false WIFI_MODE_STA (simWorld true true WIFI_MODE_APSTA)).2).2.trace
      = (applyRequest simEnv false WIFI_MODE_STA (simWorld true true WIFI_MODE_APSTA)).2.trace
          ++ [.esp_wifi_get_mode] :=
  (request_idempotent simEnv (simWorld true true WIFI_MODE_APSTA) false WIFI_MODE_STA
    WIFI_MODE_APSTA (Or.inl rfl) simEnv_query simEnv_reported (by decide)
    (by intro t; cases t <;> decide) (by decide) (by decide)).2

/-! ## Scenarios and the configuration entry point -/

/-- C6 as stated fails: on the reference driver in mode `WIFI_MODE_APSTA`, where every call
succeeds, a station-disable followed by an access-point-disable (both reporting success)
issues one set-mode call, with target `WIFI_MODE_AP`, and not zero, before the single
stop. -/
theorem disable_both_sets_mode_once :
    (miot_wifi_setup_sta simEnv (staCfg false) (simWorld true true WIFI_MODE_APSTA)).1 = 1 ∧
    (miot_wifi_setup_ap simEnv (apCfg false false)
      (miot_wifi_setup_sta simEnv (staCfg false) (simWorld true true WIFI_MODE_APSTA)).2).1 = 1 ∧
    setModeTargets (miot_wifi_setup_ap simEnv (apCfg false false)
      (miot_wifi_setup_sta simEnv (staCfg false)
        (simWorld true true WIFI_MODE_APSTA)).2).2.trace = [WIFI_MODE_AP] ∧
    stopCount (miot_wifi_setup_ap simEnv (apCfg false false)
      (miot_wifi_setup_sta simEnv (staCfg false)
        (simWorld true true WIFI_MODE_APSTA)).2).2.trace = 1 := by
  decide

/-- C6 amended: from an initialised driver in mode `WIFI_MODE_APSTA`, with set-mode reported
by get-mode and the driver calls succeeding, the station-disable reports success and issues
exactly the get-mode query and one `esp_wifi_set_mode(WIFI_MODE_AP)`, leaving the driver in
the state that set-mode produced; the access-point-disable that follows reports success and
issues exactly the get-mode query and one `esp_wifi_stop`, leaving the driver in the state
the successful stop produced; in total one set-mode call, then one stop call. -/
theorem disable_both_from_apsta {σ : Type} (env : Env σ) (w : World σ)
    (csta : sys_config_wifi_sta) (cap : sys_config_wifi_ap)
    (hsta : csta.enable = false) (hap : cap.enable = false)
    (hrep : SetModeIsReported env)
    (hget : (env.step .esp_wifi_get_mode w.drv).1 = ⟨ESP_OK, some WIFI_MODE_APSTA⟩)
    (hset : (env.step (.esp_wifi_set_mode WIFI_MODE_AP)
      (env.step .esp_wifi_get_mode w.drv).2).1.err = ESP_OK)
    (hstop : (env.step .esp_wifi_stop (env.step .esp_wifi_get_mode
      (env.step (.esp_wifi_set_mode WIFI_MODE_AP)
        (env.step .esp_wifi_get_mode w.drv).2).2).2).1.err = ESP_OK) :
    (miot_wifi_setup_sta env csta w).1 = 1 ∧
    (miot_wifi_setup_sta env csta w).2.trace
      = w.trace ++ [.esp_wifi_get_mode, .esp_wifi_set_mode WIFI_MODE_AP] ∧
    (miot_wifi_setup_sta env csta w).2.drv
      = (env.step (.esp_wifi_set_mode WIFI_MODE_AP) (env.step .esp_wifi_get_mode w.drv).2).2 ∧
    (miot_wifi_setup_ap env cap (miot_wifi_setup_sta env csta w).2).1 = 1 ∧
    (miot_wifi_setup_ap env cap (miot_wifi_setup_sta env csta w).2).2.trace
      = (miot_wifi_setup_sta env csta w).2.trace ++ [.esp_wifi_get_mode, .esp_wifi_stop] ∧
    (miot_wifi_setup_ap env cap (miot_wifi_setup_sta env csta w).2).2.trace
      = w.trace ++ [.esp_wifi_get_mode, .esp_wifi_set_mode WIFI_MODE_AP, .esp_wifi_get_mode,
          .esp_wifi_stop] ∧
    (miot_wifi_setup_ap env cap (miot_wifi_setup_sta env csta w).2).2.drv
      = (env.step .esp_wifi_stop (env.step .esp_wifi_get_mode
          (env.step (.esp_wifi_set_mode WIFI_MODE_AP)
            (env.step .esp_wifi_get_mode w.drv).2).2).2).2 := by
  have hni : (env.step (.esp_wifi_set_mode WIFI_MODE_AP)
      (call env .esp_wifi_get_mode w).2.drv).1.err ≠ ESP_ERR_WIFI_NOT_INIT := by
    rw [call_snd]
    simp only [hset]
    decide
  have e1 : miot_wifi_setup_sta env csta w
      = (1, ⟨(env.step (.esp_wifi_set_mode WIFI_MODE_AP) (env.step .esp_wifi_get_mode w.drv).2).2,
          w.trace ++ [.esp_wifi_get_mode, .esp_wifi_set_mode WIFI_MODE_AP]⟩) := by
    have r : miot_wifi_remove_mode env WIFI_MODE_STA w
        = miot_wifi_set_mode env WIFI_MODE_AP (call env .esp_wifi_get_mode w).2 := by
      simp [miot_wifi_remove_mode, call_fst, hget, ESP_OK, ESP_ERR_WIFI_NOT_INIT]
    simp only [miot_wifi_setup_sta, hsta]
    rw [r, set_mode_of_init env WIFI_MODE_AP _ hni, call_snd]
    simp [hset, c_eq]
  have g2 := hrep (env.step .esp_wifi_get_mode w.drv).2 WIFI_MODE_AP hset
  rw [e1]
  refine ⟨rfl, rfl, rfl, ?_, ?_, ?_, ?_⟩
  · simp [miot_wifi_setup_ap, hap, miot_wifi_remove_mode, call_fst, call_snd, g2, hstop, c_eq,
      ESP_OK, ESP_ERR_WIFI_NOT_INIT]
  · simp [miot_wifi_setup_ap, hap, miot_wifi_remove_mode, call_fst, call_snd, g2, ESP_OK,
      ESP_ERR_WIFI_NOT_INIT]
  · simp [miot_wifi_setup_ap, hap, miot_wifi_remove_mode, call_fst, call_snd, g2, ESP_OK,
      ESP_ERR_WIFI_NOT_INIT]
  · simp [miot_wifi_setup_ap, hap, miot_wifi_remove_mode, call_fst, call_snd, g2, ESP_OK,
      ESP_ERR_WIFI_NOT_INIT]

/-- Witness of C6 amended on the reference driver: after the station-disable the driver is
in access-point mode and still started; after the access-point-disable it is stopped. -/
theorem disable_both_from_apsta_witness :
    ((miot_wifi_setup_sta simEnv (staCfg false) (simWorld true true WIFI_MODE_APSTA)).1 = 1 ∧
    (miot_wifi_setup_sta simEnv (staCfg false) (simWorld true true WIFI_MODE_APSTA)).2.trace
      = [.esp_wifi_get_mode, .esp_wifi_set_mode WIFI_MODE_AP] ∧
    (miot_wifi_setup_sta simEnv (staCfg false) (simWorld true true WIFI_MODE_APSTA)).2.drv
      = ⟨true, true, WIFI_MODE_AP, ESP_OK, ESP_OK⟩ ∧
    (miot_wifi_setup_ap simEnv (apCfg false false)
      (miot_wifi_setup_sta simEnv (staCfg false) (simWorld true true WIFI_MODE_APSTA)).2).1 = 1 ∧
    (miot_wifi_setup_ap simEnv (apCfg false false)
      (miot_wifi_setup_sta simEnv (staCfg false) (simWorld true true WIFI_MODE_APSTA)).2).2.trace
      = [.esp_wifi_get_mode, .esp_wifi_set_mode WIFI_MODE_AP, .esp_wifi_get_mode,
          .esp_wifi_stop] ∧
    (miot_wifi_setup_ap simEnv (apCfg false false)
      (miot_wifi_setup_sta simEnv (staCfg false) (simWorld true true WIFI_MODE_APSTA)).2).2.drv
      = ⟨true, false, WIFI_MODE_AP, ESP_OK, ESP_OK⟩) :=
  have h := disable_both_from_apsta simEnv (simWorld true true WIFI_MODE_APSTA) (staCfg false)
    (apCfg false false) rfl rfl simEnv_reported (by decide) (by decide) (by decide)
  ⟨h.1, h.2.1, h.2.2.1, h.2.2.2.1, h.2.2.2.2.2.1, h.2.2.2.2.2.2⟩

/-- C7, what the code does: when the first `esp_wifi_set_mode` answers not-initialised and
`esp_wifi_init` then fails, `miot_wifi_set_mode` returns `false`, which is `ESP_OK`, after
exactly those two driver calls (no retry). -/
theorem set_mode_init_failure_returns_ok {σ : Type} (env : Env σ) (w : World σ)
    (mode : wifi_mode_t)
    (h1 : (env.step (.esp_wifi_set_mode mode) w.drv).1.err = ESP_ERR_WIFI_NOT_INIT)
    (h2 : (env.step .esp_wifi_init (env.step (.esp_wifi_set_mode mode) w.drv).2).1.err
      ≠ ESP_OK) :
    (miot_wifi_set_mode env mode w).1 = ESP_OK ∧
    (miot_wifi_set_mode env mode w).2.trace
      = w.trace ++ [.esp_wifi_set_mode mode, .esp_wifi_init] := by
  simp only [miot_wifi_set_mode, call_fst, call_snd, h1, if_true, ne_eq, h2, not_false_eq_true]
  simp [c_false, ESP_OK]

/-- Witness of C7 on the reference driver whose `esp_wifi_init` answers `ESP_ERR_NO_MEM`. -/
theorem set_mode_init_failure_returns_ok_witness :
    (miot_wifi_set_mode simEnv WIFI_MODE_STA simWorldInitFails).1 = ESP_OK ∧
    (miot_wifi_set_mode simEnv WIFI_MODE_STA simWorldInitFails).2.trace
      = simWorldInitFails.trace ++ [.esp_wifi_set_mode WIFI_MODE_STA, .esp_wifi_init] :=
  set_mode_init_failure_returns_ok simEnv simWorldInitFails WIFI_MODE_STA (by decide)
    (by decide)

/-- C8, the code at the failing input: with both radios enabled and keep-enabled set, on
the reference driver whose `esp_wifi_init` fails, `do_wifi` issues
`esp_wifi_set_mode(WIFI_MODE_APSTA)` and then `esp_wifi_set_mode(WIFI_MODE_AP)`: a set-mode
with a single-role target. -/
theorem do_wifi_both_issues_single_role :
    setModeTargets (do_wifi simEnv ⟨apCfg true true, staCfg true⟩ simWorldInitFails).2.trace
      = [WIFI_MODE_APSTA, WIFI_MODE_AP] := by
  decide

/-- C9 as stated fails: with both radios enabled and keep-enabled set, on the reference
driver whose access-point set-config is rejected, the access point's setup fails and
`do_wifi` stops there: its trace is the trace after the access point's setup, although the
station's setup would have issued driver calls from that state; the result is the failure
value. -/
theorem do_wifi_ap_failure_skips_sta :
    (miot_wifi_setup_ap simEnv (apCfg true true)
      (miot_wifi_set_mode simEnv WIFI_MODE_APSTA (simWorldApConfigFails WIFI_MODE_NULL)).2).1
      = 0 ∧
    (do_wifi simEnv ⟨apCfg true true, staCfg true⟩ (simWorldApConfigFails WIFI_MODE_NULL)).2.trace
      = (miot_wifi_setup_ap simEnv (apCfg true true)
          (miot_wifi_set_mode simEnv WIFI_MODE_APSTA
            (simWorldApConfigFails WIFI_MODE_NULL)).2).2.trace ∧
    (miot_wifi_setup_sta simEnv (staCfg true)
      (miot_wifi_setup_ap simEnv (apCfg true true)
        (miot_wifi_set_mode simEnv WIFI_MODE_APSTA
          (simWorldApConfigFails WIFI_MODE_NULL)).2).2).2.trace
      ≠ (miot_wifi_setup_ap simEnv (apCfg true true)
          (miot_wifi_set_mode simEnv WIFI_MODE_APSTA
            (simWorldApConfigFails WIFI_MODE_NULL)).2).2.trace ∧
    (do_wifi simEnv ⟨apCfg true true, staCfg true⟩ (simWorldApConfigFails WIFI_MODE_NULL)).1
      = .MIOT_INIT_CONFIG_WIFI_INIT_FAILED := by
  decide

/-- C9 amended: with both radios enabled and keep-enabled set, `do_wifi` runs
`miot_wifi_set_mode(WIFI_MODE_APSTA)`, then the access point's setup only if that returned
`ESP_OK`, then the station's setup only if the access point's setup succeeded; it ends at
the first step that fails, and the result is `MIOT_INIT_OK` exactly when the set-mode
returned `ESP_OK` and both setups succeeded. -/
theorem do_wifi_both_short_circuit {σ : Type} (env : Env σ) (cfg : sys_config_wifi)
    (w : World σ) (hap : cfg.ap.enable = true) (hsta : cfg.sta.enable = true)
    (hkeep : cfg.ap.keep_enabled = true) :
    ((miot_wifi_set_mode env WIFI_MODE_APSTA w).1 ≠ ESP_OK →
      do_wifi env cfg w
        = (.MIOT_INIT_CONFIG_WIFI_INIT_FAILED, (miot_wifi_set_mode env WIFI_MODE_APSTA w).2)) ∧
    ((miot_wifi_set_mode env WIFI_MODE_APSTA w).1 = ESP_OK →
      (miot_wifi_setup_ap env cfg.ap (miot_wifi_set_mode env WIFI_MODE_APSTA w).2).1 = 0 →
      do_wifi env cfg w
        = (.MIOT_INIT_CONFIG_WIFI_INIT_FAILED,
            (miot_wifi_setup_ap env cfg.ap (miot_wifi_set_mode env WIFI_MODE_APSTA w).2).2)) ∧
    ((miot_wifi_set_mode env WIFI_MODE_APSTA w).1 = ESP_OK →
      (miot_wifi_setup_ap env cfg.ap (miot_wifi_set_mode env WIFI_MODE_APSTA w).2).1 ≠ 0 →
      (do_wifi env cfg w).2
        = (miot_wifi_setup_sta env cfg.sta
            (miot_wifi_setup_ap env cfg.ap
              (miot_wifi_set_mode env WIFI_MODE_APSTA w).2).2).2) ∧
    ((do_wifi env cfg w).1 = .MIOT_INIT_OK ↔
      (miot_wifi_set_mode env WIFI_MODE_APSTA w).1 = ESP_OK ∧
      (miot_wifi_setup_ap env cfg.ap (miot_wifi_set_mode env WIFI_MODE_APSTA w).2).1 ≠ 0 ∧
      (miot_wifi_setup_sta env cfg.sta
        (miot_wifi_setup_ap env cfg.ap
          (miot_wifi_set_mode env WIFI_MODE_APSTA w).2).2).1 ≠ 0) := by
  refine ⟨fun h => ?_, fun h h2 => ?_, fun h h2 => ?_, ?_⟩
  · simp [do_wifi, hap, hsta, hkeep, h]
  · simp [do_wifi, hap, hsta, hkeep, h, h2]
  · simp [do_wifi, hap, hsta, hkeep, h, h2]
  · by_cases h : (miot_wifi_set_mode env WIFI_MODE_APSTA w).1 = ESP_OK
    · by_cases h2 :
        (miot_wifi_setup_ap env cfg.ap (miot_wifi_set_mode env WIFI_MODE_APSTA w).2).1 = 0
      · simp [do_wifi, hap, hsta, hkeep, h, h2]
      · by_cases h3 : (miot_wifi_setup_sta env cfg.sta
            (miot_wifi_setup_ap env cfg.ap
              (miot_wifi_set_mode env WIFI_MODE_APSTA w).2).2).1 = 0
        · simp [do_wifi, hap, hsta, hkeep, h, h2, h3]
        · simp [do_wifi, hap, hsta, hkeep, h, h2, h3]
    · simp [do_wifi, hap, hsta, hkeep, h]

/-- Witness of C9 amended on the reference driver whose access-point set-config is
rejected. -/
theorem do_wifi_both_short_circuit_witness :
    do_wifi simEnv ⟨apCfg true true, staCfg true⟩ (simWorldApConfigFails WIFI_MODE_NULL)
      = (.MIOT_INIT_CONFIG_WIFI_INIT_FAILED,
          (miot_wifi_setup_ap simEnv (apCfg true true)
            (miot_wifi_set_mode simEnv WIFI_MODE_APSTA
              (simWorldApConfigFails WIFI_MODE_NULL)).2).2) :=
  (do_wifi_both_short_circuit simEnv ⟨apCfg true true, staCfg true⟩
    (simWorldApConfigFails WIFI_MODE_NULL) rfl rfl rfl).2.1 (by decide) (by decide)

/-- C10: with both radios enabled and keep-enabled not set, `do_wifi` is the station's
setup alone: the driver state and the driver calls are those of
`miot_wifi_setup_sta(&cfg->sta)` (so the access point's setup is not run and `do_wifi` adds
no set-mode of its own), and the result is `MIOT_INIT_OK` exactly when that call returns
non-zero. -/
theorem do_wifi_tie_break {σ : Type} (env : Env σ) (cfg : sys_config_wifi) (w : World σ)
    (hap : cfg.ap.enable = true) (hsta : cfg.sta.enable = true)
    (hkeep : cfg.ap.keep_enabled = false) :
    (do_wifi env cfg w).2 = (miot_wifi_setup_sta env cfg.sta w).2 ∧
    ((do_wifi env cfg w).1 = .MIOT_INIT_OK ↔ (miot_wifi_setup_sta env cfg.sta w).1 ≠ 0) ∧
    ((do_wifi env cfg w).1 = .MIOT_INIT_CONFIG_WIFI_INIT_FAILED ↔
      (miot_wifi_setup_sta env cfg.sta w).1 = 0) := by
  by_cases h : (miot_wifi_setup_sta env cfg.sta w).1 = 0
  · simp [do_wifi, hap, hsta, hkeep, h]
  · simp [do_wifi, hap, hsta, hkeep, h]

/-- Witness of C10 on the reference driver before its first use. -/
theorem do_wifi_tie_break_witness :
    (do_wifi simEnv ⟨apCfg true false, staCfg true⟩ (simWorld false false WIFI_MODE_NULL)).2
      = (miot_wifi_setup_sta simEnv (staCfg true) (simWorld false false WIFI_MODE_NULL)).2 :=
  (do_wifi_tie_break simEnv ⟨apCfg true false, staCfg true⟩
    (simWorld false false WIFI_MODE_NULL) rfl rfl rfl).1

end Esp32Wifi
